import Mathlib

/-!
Verification of the carousel synthesis engine of `content-accounts`.

The Python sources under `src/core/` are shallowly embedded below:

* `semantic_scorer.py` / `generator.py::_score_hook`  → `scoreHook`
* `pexels_client.py::download_photo` history update    → `trackDownload`
* `pexels_client.py::search_photos`                    → `searchPhotos`
* `image_generator.py::_generate_pexels`               → `generatePexelsT`
* `image_generator.py::_generate_gemini`               → `imageGenGemini`
* `generator.py::generate` gemini slide loop           → `geminiAcquire`
* `generator.py::_parse_claude_response`               → `parseClaudeResponse`
  (structured path `tryStructured`, heuristic path `heuristicParse`)
* `generator.py::_clean_text`                          → `cleanText`
* `generator.py::_add_text_overlay` layout             → `hookLayout`, `contentLayout`
* `generator.py::_generate_content_with_claude` loop   → `contentLoop`
* `generator.py::generate` format validation / capping → `effectiveNumItems`

External services (the LLM, the embedding service, the Gemini image API,
the Pexels API and the PIL font-measurement routine) are modelled as
oracle function parameters; Python stdlib behaviour (`str` methods,
`json.loads`) is transcribed on `List Char` so that every definition is
executable and kernel-evaluable.
-/

namespace ContentAccounts

set_option maxRecDepth 10000

/-! ### Python string primitives (ASCII model of `str` methods) -/

/-- Python `\s` / `str.strip()` whitespace (ASCII part). -/
def wsChar (c : Char) : Bool :=
  c == ' ' || c == '\t' || c == '\n' || c == '\r' || c == '\x0b' || c == '\x0c'

def stripList (cs : List Char) : List Char :=
  ((cs.dropWhile wsChar).reverse.dropWhile wsChar).reverse

/-- Python `str.strip()`. -/
def pyStrip (s : String) : String := String.mk (stripList s.toList)

/-- Python `str.lower()` (ASCII). -/
def pyLower (s : String) : String := String.mk (s.toList.map Char.toLower)

/-- Python `str.split()` with no argument: split on whitespace runs, dropping empties. -/
def pySplitWsAux : List Char → List Char → List String
  | [], cur => if cur.isEmpty then [] else [String.mk cur.reverse]
  | c :: cs, cur =>
    if wsChar c then
      if cur.isEmpty then pySplitWsAux cs []
      else String.mk cur.reverse :: pySplitWsAux cs []
    else pySplitWsAux cs (c :: cur)

def pySplitWs (s : String) : List String := pySplitWsAux s.toList []

/-- Python `str.startswith(p)`. -/
def strStarts (s p : String) : Bool := p.toList.isPrefixOf s.toList

/-- Python `s.startswith((p1, p2, ...))`. -/
def strStartsAny (s : String) (ps : List String) : Bool := ps.any (strStarts s)

def containsSub (pat : List Char) : List Char → Bool
  | [] => pat.isPrefixOf []
  | c :: cs => pat.isPrefixOf (c :: cs) || containsSub pat cs

/-- Python `pat in hay` (substring containment). -/
def strContains (hay pat : String) : Bool := containsSub pat.toList hay.toList

/-- Python `str.isupper()` (ASCII): at least one cased character and no lowercase one. -/
def pyIsUpper (s : String) : Bool :=
  s.toList.any (fun c => c.isUpper || c.isLower) && s.toList.all (fun c => !c.isLower)

/-- Split a character list on a separator character (Python `str.split(sep)`). -/
def splitChar (sep : Char) : List Char → List (List Char)
  | [] => [[]]
  | c :: cs =>
    let r := splitChar sep cs
    if c == sep then [] :: r
    else match r with
      | [] => [[c]]
      | h :: t => (c :: h) :: t

def intercalateList (sep : List Char) : List (List Char) → List Char
  | [] => []
  | [l] => l
  | l :: ls => l ++ sep ++ intercalateList sep ls

/-- Python `str.replace(pat, rep)` with a non-empty pattern, leftmost,
non-overlapping.  Structural recursion on a fuel counter equal to the input
length (each step consumes at least one character, so the fuel suffices). -/
def replaceListAux (p0 : Char) (ps rep : List Char) : Nat → List Char → List Char
  | _, [] => []
  | 0, l => l
  | fuel + 1, c :: cs =>
    if (p0 :: ps).isPrefixOf (c :: cs) then
      rep ++ replaceListAux p0 ps rep fuel (cs.drop ps.length)
    else c :: replaceListAux p0 ps rep fuel cs

def replaceList (p0 : Char) (ps rep : List Char) (l : List Char) : List Char :=
  replaceListAux p0 ps rep l.length l

/-! ### `generator.py::_score_hook` (lines 736-787)

The semantic scorer (`semantic_scorer.py`, an embedding-service client) is
modelled as a pair of oracles `sem` (for `score_hook`, returning the total
and the feedback list) and `dims` (for `get_dimension_breakdown`). -/

structure ScoreResult where
  total : Int
  scores : List (String × Int)
  grade : String
  passed : Bool
  feedback : List String
deriving DecidableEq, Repr

def scoreHook (sem : String → Int × List String) (dims : String → List (String × Int))
    (hook_text : String) (min_score : Int) (max_words : Nat) : ScoreResult :=
  let word_count := (pySplitWs hook_text).length
  if max_words < word_count then
    { total := 0, scores := [], grade := "F", passed := false,
      feedback := [s!"FAILED: Hook exceeds {max_words} word limit ({word_count} words)"] }
  else
    let (total, feedback) := sem hook_text
    let dimension_scores := dims hook_text
    let passed := min_score ≤ total
    let grade :=
      if 18 ≤ total then "A"
      else if 16 ≤ total then "B"
      else if 14 ≤ total then "C"
      else "F"
    { total := total, scores := dimension_scores, grade := grade, passed := passed,
      feedback := feedback }

/-! ### `pexels_client.py::download_photo` history update (lines 121-130) -/

structure PexelsHistory where
  used_ids : List Int
  max_history : Nat
deriving DecidableEq, Repr

/-- The history mutation performed by a successful `download_photo`: append the
id if unseen, then (as in the source) trim to the literal last 50 whenever the
length exceeds `max_history`. -/
def trackDownload (h : PexelsHistory) (photo_id : Int) : PexelsHistory :=
  if photo_id ∈ h.used_ids then h
  else
    let ids := h.used_ids ++ [photo_id]
    let ids := if h.max_history < ids.length then ids.drop (ids.length - 50) else ids
    { h with used_ids := ids }

def trackDownloads (h : PexelsHistory) (ids : List Int) : PexelsHistory :=
  ids.foldl trackDownload h

/-- The last `n` elements of a list. -/
def lastN (n : Nat) (l : List α) : List α := l.drop (l.length - n)

theorem lastN_length_le (n : Nat) (l : List α) : (lastN n l).length ≤ n := by
  simp only [lastN, List.length_drop]; omega

theorem lastN_of_le {n : Nat} {l : List α} (h : l.length ≤ n) : lastN n l = l := by
  simp only [lastN]
  have : l.length - n = 0 := by omega
  simp [this]

theorem lastN_cons {n : Nat} {l : List α} (c : α) (h : n ≤ l.length) :
    lastN n (c :: l) = lastN n l := by
  simp only [lastN, List.length_cons]
  have : l.length + 1 - n = (l.length - n) + 1 := by omega
  simp [this]

theorem lastN_idem_append (n : Nat) (a b : List α) :
    lastN n (lastN n a ++ b) = lastN n (a ++ b) := by
  induction a with
  | nil => simp [lastN]
  | cons c a ih =>
    by_cases hn : n ≤ a.length
    · have h1 : lastN n (c :: a) = lastN n a := lastN_cons c hn
      have h2 : lastN n ((c :: a) ++ b) = lastN n (a ++ b) := by
        have : (c :: a) ++ b = c :: (a ++ b) := rfl
        rw [this, lastN_cons c (by simp only [List.length_append]; omega)]
      rw [h1, h2, ih]
    · push_neg at hn
      have h1 : lastN n (c :: a) = c :: a := lastN_of_le (by simp only [List.length_cons]; omega)
      rw [h1]

/-- FIFO shape of the history after a run of downloads of fresh, pairwise
distinct ids: the retained ids are exactly the last 50 of everything seen. -/
theorem trackDownloads_used_ids (ids : List Int) :
    ∀ (u : List Int), (u ++ ids).Nodup → u.length ≤ 50 →
      (trackDownloads ⟨u, 50⟩ ids).used_ids = lastN 50 (u ++ ids) := by
  induction ids with
  | nil => intro u _ hu; simp [trackDownloads, lastN_of_le hu]
  | cons id rest ih =>
    intro u hnd hu
    have hmem : id ∉ u := fun hin =>
      (List.disjoint_left.mp (List.nodup_append.mp hnd).2.2 hin) (List.mem_cons_self id rest)
    have hstep : trackDownload ⟨u, 50⟩ id = ⟨lastN 50 (u ++ [id]), 50⟩ := by
      simp only [trackDownload, hmem, if_false]
      by_cases hlen : u.length = 50
      · have h50 : (50 : Nat) < (u ++ [id]).length := by simp [hlen]
        simp only [if_pos h50, lastN]
      · have hle : (u ++ [id]).length ≤ 50 := by
          simp only [List.length_append, List.length_singleton]; omega
        have : ¬ (50 : Nat) < (u ++ [id]).length := by omega
        simp only [if_neg this, lastN_of_le hle]
    have hassoc : u ++ id :: rest = (u ++ [id]) ++ rest := by simp
    have hnd' : ((lastN 50 (u ++ [id])) ++ rest).Nodup := by
      have hsub : List.Sublist ((lastN 50 (u ++ [id])) ++ rest) ((u ++ [id]) ++ rest) :=
        List.Sublist.append_right (List.drop_sublist _ _) rest
      exact ((hassoc ▸ hnd).sublist hsub)
    have := ih (lastN 50 (u ++ [id])) hnd' (lastN_length_le _ _)
    calc (trackDownloads ⟨u, 50⟩ (id :: rest)).used_ids
        = (trackDownloads ⟨lastN 50 (u ++ [id]), 50⟩ rest).used_ids := by
          simp only [trackDownloads, List.foldl_cons, hstep]
      _ = lastN 50 ((lastN 50 (u ++ [id])) ++ rest) := this
      _ = lastN 50 ((u ++ [id]) ++ rest) := lastN_idem_append _ _ _
      _ = lastN 50 (u ++ id :: rest) := by rw [← hassoc]

/-- C7: the stock-photo dedup history is a bounded FIFO: after a sequence of
`N > 50` successful downloads of distinct ids starting from an empty history
(default capacity 50), the history is exactly the 50 most recent ids — the
oldest were evicted first — its length equals the capacity, and after every
prefix of the sequence the size never exceeds the capacity. -/
theorem dedup_history_bounded_fifo (ids : List Int) (hnd : ids.Nodup)
    (hlen : 50 < ids.length) :
    (trackDownloads ⟨[], 50⟩ ids).used_ids = ids.drop (ids.length - 50) ∧
    (trackDownloads ⟨[], 50⟩ ids).used_ids.length = 50 ∧
    ∀ k, ((trackDownloads ⟨[], 50⟩ (ids.take k)).used_ids).length ≤ 50 := by
  have hmain : (trackDownloads ⟨[], 50⟩ ids).used_ids = lastN 50 ids := by
    simpa using trackDownloads_used_ids ids [] (by simpa using hnd) (by simp)
  refine ⟨hmain, ?_, ?_⟩
  · rw [hmain]
    simp only [lastN, List.length_drop]
    omega
  · intro k
    have hndk : (ids.take k).Nodup := hnd.sublist (List.take_sublist k ids)
    have := trackDownloads_used_ids (ids.take k) [] (by simpa using hndk) (by simp)
    simp only [List.nil_append] at this
    rw [this]
    exact lastN_length_le _ _

def wIds : List Int := (List.range 51).map Int.ofNat

/-- Concrete instantiation of `dedup_history_bounded_fifo` at 51 distinct ids. -/
theorem dedup_history_bounded_fifo_witness :
    wIds.Nodup ∧ 50 < wIds.length ∧
    (trackDownloads ⟨[], 50⟩ wIds).used_ids = wIds.drop (wIds.length - 50) ∧
    (trackDownloads ⟨[], 50⟩ wIds).used_ids.length = 50 :=
  ⟨by decide, by decide,
   (dedup_history_bounded_fifo wIds (by decide) (by decide)).1,
   (dedup_history_bounded_fifo wIds (by decide) (by decide)).2.1⟩

/-- C2: any hook whose word count exceeds `max_words` scores total 0, grade F,
`passed = false` — for every caller-supplied `min_score`, including 0 — and the
result does not depend on the semantic-scorer oracles at all (the embedding
service is never consulted). -/
theorem hook_word_ceiling_gate (sem : String → Int × List String)
    (dims : String → List (String × Int)) (hook : String) (min_score : Int)
    (max_words : Nat) (h : max_words < (pySplitWs hook).length) :
    (scoreHook sem dims hook min_score max_words).total = 0 ∧
    (scoreHook sem dims hook min_score max_words).grade = "F" ∧
    (scoreHook sem dims hook min_score max_words).passed = false ∧
    ∀ (sem2 : String → Int × List String) (dims2 : String → List (String × Int)),
      scoreHook sem dims hook min_score max_words
        = scoreHook sem2 dims2 hook min_score max_words := by
  refine ⟨?_, ?_, ?_, ?_⟩ <;> simp [scoreHook, if_pos h]

/-- Concrete instantiation of `hook_word_ceiling_gate`: a 21-word hook with
`max_words = 20` and `min_score = 0`. -/
theorem hook_word_ceiling_gate_witness :
    (20 : Nat) < (pySplitWs "a b c d e f g h i j k l m n o p q r s t u").length ∧
    (scoreHook (fun _ => (20, [])) (fun _ => [])
        "a b c d e f g h i j k l m n o p q r s t u" 0 20).total = 0 ∧
    (scoreHook (fun _ => (20, [])) (fun _ => [])
        "a b c d e f g h i j k l m n o p q r s t u" 0 20).passed = false :=
  ⟨by decide,
   (hook_word_ceiling_gate (fun _ => (20, [])) (fun _ => [])
      "a b c d e f g h i j k l m n o p q r s t u" 0 20 (by decide)).1,
   (hook_word_ceiling_gate (fun _ => (20, [])) (fun _ => [])
      "a b c d e f g h i j k l m n o p q r s t u" 0 20 (by decide)).2.2.1⟩

/-! ### `generator.py::_clean_text` (lines 789-823)

The two `re.sub` calls are transcribed as explicit scanners over the
character list; the remaining operations are `str` methods.  Both global
substitutions are driven by a fuel counter equal to the input length — every
successful match consumes at least two characters, so the fuel never runs
out on the reachable paths. -/

/-- The single-quote character (U+0027). -/
def sq : Char := Char.ofNat 39

def matchLit (pat : List Char) (cs : List Char) : Option (List Char) :=
  if pat.isPrefixOf cs then some (cs.drop pat.length) else none

def matchCI : List Char → List Char → Option (List Char)
  | [], cs => some cs
  | _ :: _, [] => none
  | p :: ps, c :: cs => if c.toLower = p.toLower then matchCI ps cs else none

def matchOneOrMore (p : Char → Bool) : List Char → Option (List Char)
  | [] => none
  | c :: cs => if p c then some (cs.dropWhile p) else none

/-- One attempt of `re.sub` pattern `\*\*SLIDE\s+\d+\s*\([^)]+\)\s*\*\*:?`
(IGNORECASE) at the head of the input; on success returns what follows the
match. -/
def matchSlideParen (cs : List Char) : Option (List Char) := do
  let cs ← matchLit ['*', '*'] cs
  let cs ← matchCI ['s', 'l', 'i', 'd', 'e'] cs
  let cs ← matchOneOrMore wsChar cs
  let cs ← matchOneOrMore Char.isDigit cs
  let cs := cs.dropWhile wsChar
  let cs ← matchLit ['('] cs
  let cs ← matchOneOrMore (fun c => c != ')') cs
  let cs ← matchLit [')'] cs
  let cs := cs.dropWhile wsChar
  let cs ← matchLit ['*', '*'] cs
  pure (match cs with | ':' :: r => r | _ => cs)

/-- One attempt of `re.sub` pattern `\*\*([^*]+)\*\*` at the head of the
input; on success returns the captured group and what follows the match. -/
def matchBold (cs : List Char) : Option (List Char × List Char) := do
  let cs1 ← matchLit ['*', '*'] cs
  let inner := cs1.takeWhile (fun c => c != '*')
  if inner.isEmpty then none
  else
    let cs2 := cs1.dropWhile (fun c => c != '*')
    let cs3 ← matchLit ['*', '*'] cs2
    pure (inner, cs3)

/-- Global leftmost, non-overlapping regex substitution: at each position try
the matcher (which yields the replacement text and the rest); on failure emit
one character and move on. -/
def globalSub (m : List Char → Option (List Char × List Char)) :
    Nat → List Char → List Char
  | 0, cs => cs
  | _ + 1, [] => []
  | fuel + 1, c :: cs =>
    match m (c :: cs) with
    | some (em, rest) => em ++ globalSub m fuel rest
    | none => c :: globalSub m fuel cs

/-- Python `str.strip(chars)`. -/
def stripCharSet (set : List Char) (cs : List Char) : List Char :=
  ((cs.dropWhile (set.contains ·)).reverse.dropWhile (set.contains ·)).reverse

/-- `re.sub(r'^#+\s*', '', text)` — anchored at the start only (no MULTILINE). -/
def stripLeadingHash (cs : List Char) : List Char :=
  match cs with
  | '#' :: _ => (cs.dropWhile (· == '#')).dropWhile wsChar
  | _ => cs

/-- Whitespace re-joining at the end of `_clean_text`: split on newlines,
strip every line, drop the empties and re-join with blank lines. -/
def joinLines (cs : List Char) : String :=
  let ls := (splitChar '\n' cs).map stripList
  let ls := ls.filter (fun l => !l.isEmpty)
  pyStrip (String.mk (intercalateList ['\n', '\n'] ls))

/-- `generator.py::_clean_text`. -/
def cleanText (text : String) : String :=
  let cs := text.toList
  let cs := globalSub (fun l => (matchSlideParen l).map (fun r => (([] : List Char), r)))
    cs.length cs
  let cs := stripCharSet ['"', sq] cs
  let cs := replaceList '\\' ['"'] [] cs
  let cs := replaceList '\\' [sq] [] cs
  let cs := stripLeadingHash cs
  let cs := globalSub matchBold cs.length cs
  let cs := replaceList '\n' "\n---\n\n****".toList [] cs
  let cs := replaceList '\n' "\n---".toList [] cs
  let cs := replaceList '\n' "\n****".toList [] cs
  let cs := replaceList '*' "***".toList [] cs
  let cs := replaceList '*' "**".toList [] cs
  joinLines cs

/-! ### `generator.py::_parse_claude_response`, heuristic text path
(lines 560-734)

The regex-based meta-markup cleanup of lines 563-568 together with
`content_text.strip().split('\n')` turns the raw model text into a list of
lines; the state machine below is a transcription of everything that follows
and operates on that line list, so quantifying over all `lines : List String`
subsumes quantifying over all raw model texts.  `prompts._random_cta`
(`random.choice` over `CTA_OPTIONS`) is modelled by the `ctaChoice` index. -/

/-- `prompts.CTA_OPTIONS`. -/
def ctaOptions : List String :=
  ["save this so you can come back to it when you need it",
   "save for later",
   "try one tonight",
   "which one are you trying first? drop it below",
   "send this to a mom who needs it",
   "comment which one surprised you most",
   "save this before you forget"]

/-- `prompts._random_cta`, with the random draw exposed as an index. -/
def randomCta (k : Nat) : String := ctaOptions.getD (k % ctaOptions.length) ""

/-- `_CTA_MARKERS` of `_parse_claude_response`. -/
def ctaMarkers : List String :=
  ["save this", "save for later", "send this", "try one tonight",
   "which one are you", "comment which", "drop it below", "come back to it"]

/-- `_is_cta`: case-insensitive substring match against the marker list. -/
def isCta (text : String) : Bool := ctaMarkers.any (fun m => strContains (pyLower text) m)

/-- `_is_category_start`: recognized item-label line. -/
def isCategoryStart (text : String) : Bool :=
  if strStartsAny (pyLower text) ["tip ", "step ", "habit ", "script "] then true
  else if strContains text ":" then
    let before := String.mk (stripList (text.toList.takeWhile (fun c => c != ':')))
    let w := (pySplitWs before).length
    decide (0 < w) && decide (w ≤ 3) && decide (before.length ≤ 30)
  else false

/-- Hook selection (lines 573-582): the first non-empty, non-all-caps line
that is neither an item line nor a `save this` line. -/
def findHook : List String → Option String
  | [] => none
  | l :: rest =>
    let line := pyStrip l
    if line ≠ "" ∧ ¬ strStartsAny (pyLower line) ["tip ", "step ", "habit ", "script "] ∧
        ¬ strStarts (pyLower line) "save this" then
      if pyIsUpper line then findHook rest else some line
    else findHook rest

/-- Fallback hooks (lines 584-595). -/
def fallbackHook (fmt topic : String) (numItems : Nat) : String :=
  if fmt = "habit_list" then s!"{numItems} tips about {topic} that actually work"
  else if fmt = "boring_habits" then s!"{numItems} simple habits for {topic} that changed everything"
  else if fmt = "scripts" then s!"what to say about {topic}"
  else if fmt = "how_to" then s!"how to handle {topic}"
  else s!"the {topic} guide that actually works"

/-- Blank-line look-ahead (lines 660-662): first index `≥ k` holding a
non-blank line.  The loops below advance their index by one per step and stop
at `lines.length`, so structural recursion on a fuel counter of
`lines.length + 1` is exact. -/
def nextNonEmptyAux (lines : List String) : Nat → Nat → Nat
  | 0, k => k
  | fuel + 1, k =>
    if lines.length ≤ k then k
    else if pyStrip (lines.getD k "") = "" then nextNonEmptyAux lines fuel (k + 1) else k

def nextNonEmpty (lines : List String) (k : Nat) : Nat :=
  nextNonEmptyAux lines (lines.length + 1) k

/-- Continuation gathering for one item (lines 653-694): returns the gathered
lines and the index the outer loop resumes from. -/
def gatherTipAux (lines : List String) : Nat → Nat → List String → List String × Nat
  | 0, j, acc => (acc, j)
  | fuel + 1, j, acc =>
    if lines.length ≤ j then (acc, j)
    else
      let cl := pyStrip (lines.getD j "")
      if cl = "" then
        let k := nextNonEmpty lines (j + 1)
        if k < lines.length then
          let peek := pyStrip (lines.getD k "")
          if isCategoryStart peek || isCta peek then (acc, j)
          else gatherTipAux lines fuel (j + 1) acc
        else gatherTipAux lines fuel (j + 1) acc
      else if isCta cl then (acc, j)
      else if strStarts (pyLower cl) "slide" || strStarts cl "#" then (acc, j)
      else if isCategoryStart cl then (acc, j)
      else gatherTipAux lines fuel (j + 1) (acc ++ [cl])

def gatherTip (lines : List String) (j : Nat) (acc : List String) : List String × Nat :=
  gatherTipAux lines (lines.length + 1) j acc

/-- The item-extraction loop (lines 622-708). -/
def tipLoopAux (lines : List String) (hook : String) (numItems : Nat) :
    Nat → Nat → Nat → Nat → List String → List String
  | 0, _, _, _, acc => acc
  | fuel + 1, i, skipUntil, tipCount, acc =>
    if lines.length ≤ i then acc
    else if i < skipUntil then tipLoopAux lines hook numItems fuel (i + 1) skipUntil tipCount acc
    else
      let line := pyStrip (lines.getD i "")
      if line = "" ∨ line ∈ ["---", "****", "***", "**", "*"] then
        tipLoopAux lines hook numItems fuel (i + 1) skipUntil tipCount acc
      else if strStarts (pyLower line) "slide" ∨ strStarts line "#" then
        tipLoopAux lines hook numItems fuel (i + 1) skipUntil tipCount acc
      else if line = hook then
        tipLoopAux lines hook numItems fuel (i + 1) (i + 1) tipCount acc
      else if isCta line then acc
      else if ¬ isCategoryStart line then
        tipLoopAux lines hook numItems fuel (i + 1) skipUntil tipCount acc
      else
        let gj := gatherTip lines (i + 1) [line]
        let tip := cleanText (String.intercalate "\n\n" gj.1)
        if tip ≠ "" ∧ tip ≠ hook then
          if numItems ≤ tipCount + 1 then acc ++ [tip]
          else tipLoopAux lines hook numItems fuel (i + 1) gj.2 (tipCount + 1) (acc ++ [tip])
        else tipLoopAux lines hook numItems fuel (i + 1) skipUntil tipCount acc

def tipLoop (lines : List String) (hook : String) (numItems : Nat)
    (i skipUntil tipCount : Nat) (acc : List String) : List String :=
  tipLoopAux lines hook numItems (lines.length + 1) i skipUntil tipCount acc

/-- CTA search (lines 711-718): the first line anywhere in the input matching
a marker, skipped if its cleaned text is empty. -/
def ctaSearch : List String → List String
  | [] => []
  | l :: rest =>
    if isCta l then
      let t := cleanText l
      if t ≠ "" then [t] else ctaSearch rest
    else ctaSearch rest

/-- Padding loop (lines 721-728): placeholder items below `target - 1`, a
canned CTA at the last position.  Each pass appends exactly one slide, so a
fuel of `target - slides.length` runs the loop to completion. -/
def padSlidesAux (target c : Nat) : Nat → List String → List String
  | 0, s => s
  | fuel + 1, s =>
    if s.length < target then
      if s.length < target - 1 then
        let n := s.length
        padSlidesAux target c fuel (s ++ [s!"tip {n}\n\nexplanation here"])
      else padSlidesAux target c fuel (s ++ [randomCta c])
    else s

def padSlides (slides : List String) (target : Nat) (ctaChoice : Nat) : List String :=
  padSlidesAux target ctaChoice (target - slides.length) slides

/-- The heuristic text path of `_parse_claude_response`, from the split line
list to the final slide texts. -/
def heuristicParse (lines : List String) (fmt topic : String) (numItems : Nat)
    (ctaChoice : Nat) : List String :=
  let hook :=
    match findHook lines with
    | some h => h
    | none => fallbackHook fmt topic numItems
  let hook := cleanText hook
  let tips := tipLoop lines hook numItems 0 0 0 []
  let slides := (hook :: tips) ++ ctaSearch lines
  (padSlides slides (numItems + 2) ctaChoice).take (numItems + 2)

theorem padSlidesAux_ge (target c : Nat) :
    ∀ (fuel : Nat) (s : List String), target ≤ s.length + fuel →
      target ≤ (padSlidesAux target c fuel s).length := by
  intro fuel
  induction fuel with
  | zero => intro s hs; simpa [padSlidesAux] using hs
  | succ fuel ih =>
    intro s hs
    rw [padSlidesAux]
    by_cases h : s.length < target
    · rw [if_pos h]
      by_cases h2 : s.length < target - 1
      · rw [if_pos h2]
        exact ih _ (by simp only [List.length_append, List.length_singleton]; omega)
      · rw [if_neg h2]
        exact ih _ (by simp only [List.length_append, List.length_singleton]; omega)
    · rw [if_neg h]
      omega

/-- The padding loop always reaches at least `target` slides. -/
theorem padSlides_ge (target c : Nat) (s : List String) :
    target ≤ (padSlides s target c).length :=
  padSlidesAux_ge target c (target - s.length) s (by omega)

theorem take_padSlides_length (s : List String) (t c : Nat) :
    ((padSlides s t c).take t).length = t := by
  rw [List.length_take]
  have := padSlides_ge t c s
  omega

/-- Every run of the heuristic path yields exactly `numItems + 2` slides. -/
theorem heuristicParse_length (lines : List String) (fmt topic : String) (k c : Nat) :
    (heuristicParse lines fmt topic k c).length = k + 2 :=
  take_padSlides_length _ (k + 2) c

/-- Well-formed synthetic model output: a hook line, `n` one-line `tip i:`
items, and a call-to-action line. -/
def wfHook : String := "most parents get this wrong every night"

def wfItemLine (i : Nat) : String := s!"tip {i}: short advice {i}"

def wfCta : String := "save this for later"

def wfInput (n : Nat) : List String :=
  wfHook :: ((List.range n).map (fun i => wfItemLine (i + 1)) ++ [wfCta])

/-- C1: (i) for every item count and every line list (hence every raw model
text) the heuristic path returns exactly `expected_item_count + 2` slides;
(ii) for every `expected_item_count ∈ [5, 10]` on well-formed synthetic input
the parse is the hook followed by the item lines and the call-to-action, the
hook differs from every item line, and the final slide matches the
call-to-action phrase list. -/
theorem heuristic_parser_contract :
    (∀ (lines : List String) (fmt topic : String) (k c : Nat),
      (heuristicParse lines fmt topic k c).length = k + 2) ∧
    (∀ n, 5 ≤ n → n ≤ 10 →
      heuristicParse (wfInput n) "habit_list" "toddler tantrums" n 0
        = wfHook :: ((List.range n).map (fun i => wfItemLine (i + 1)) ++ [wfCta]) ∧
      (∀ s ∈ (List.range n).map (fun i => wfItemLine (i + 1)), wfHook ≠ s) ∧
      ∃ m ∈ ctaMarkers, strContains (pyLower wfCta) m = true) := by
  refine ⟨fun lines fmt topic k c => heuristicParse_length lines fmt topic k c, ?_⟩
  intro n h5 h10
  interval_cases n <;> exact ⟨by decide, by decide, by decide⟩

/-- Concrete instantiation of `heuristic_parser_contract` at
`expected_item_count = 5`. -/
theorem heuristic_parser_contract_witness :
    (5 ≤ 5 ∧ 5 ≤ 10) ∧
    heuristicParse (wfInput 5) "habit_list" "toddler tantrums" 5 0
      = wfHook :: ((List.range 5).map (fun i => wfItemLine (i + 1)) ++ [wfCta]) :=
  ⟨⟨by decide, by decide⟩, (heuristic_parser_contract.2 5 (by decide) (by decide)).1⟩

/-! ### `generator.py::_add_text_overlay` layout (lines 1139-1266)

PIL font metrics (`draw.textbbox`) are external; they are modelled by
`measure` oracles returning the pixel width of a rendered string.  The float
factor `0.85` of the hook width is modelled as the exact ratio `85/100`
(exact at the fixed 1080-pixel slide width). -/

/-- The greedy word-wrap loop (identical in the hook, title and body cases). -/
def wrapGreedyAux (measure : String → Nat) (maxWidth : Nat) :
    List String → List String → List String → List String
  | [], acc, current =>
    if current.isEmpty then acc else acc ++ [String.intercalate " " current]
  | w :: ws, acc, current =>
    let current' := current ++ [w]
    let test := String.intercalate " " current'
    if maxWidth < measure test then
      if current'.length = 1 then
        wrapGreedyAux measure maxWidth ws (acc ++ [test]) []
      else
        if current.isEmpty then wrapGreedyAux measure maxWidth ws acc [w]
        else wrapGreedyAux measure maxWidth ws (acc ++ [String.intercalate " " current]) [w]
    else wrapGreedyAux measure maxWidth ws acc current'

def wrapGreedy (measure : String → Nat) (maxWidth : Nat) (words : List String) : List String :=
  wrapGreedyAux measure maxWidth words [] []

structure TextBlock where
  startY : Int
  totalHeight : Int
deriving DecidableEq, Repr

/-- Hook-slide placement (lines 1141-1175): wrap at 85% of the width, line
height 95, vertical centering clamped into safe zones top 150 / bottom 320. -/
def hookLayout (measure : String → Nat) (imgW imgH : Int) (text : String) : TextBlock :=
  let words := pySplitWs text
  let maxWidth := (imgW * 85).toNat / 100
  let lines := wrapGreedy measure maxWidth words
  let lineHeight : Int := 95
  let safeTop : Int := 150
  let safeBottom : Int := imgH - 320
  let totalHeight : Int := (lines.length : Int) * lineHeight
  let startY := Int.fdiv (imgH - totalHeight) 2
  let startY := max safeTop (min startY (safeBottom - totalHeight))
  ⟨startY, totalHeight⟩

/-- Content-slide placement (lines 1192-1266): title font wraps the first
line, body font the rest, both at width `imgW - 70 - 120`; vertical centering
clamped into safe zones top 180 / bottom 320. -/
def contentLayout (measureTitle measureBody : String → Nat) (imgW imgH : Int)
    (text : String) : TextBlock :=
  let ls := (splitChar '\n' text.toList).map String.mk
  let title := ls.headD ""
  let body := String.intercalate "\n" (ls.drop 1)
  let maxWidth := (imgW - 70 - 120).toNat
  let titleLines := if title = "" then [] else wrapGreedy measureTitle maxWidth (pySplitWs title)
  let titleHeight : Int := (titleLines.length : Int) * 100
  let titleSpacing : Int := 40
  let bodyLines := if body = "" then [] else wrapGreedy measureBody maxWidth (pySplitWs body)
  let bodyHeight : Int := (bodyLines.length : Int) * 55
  let totalHeight := titleHeight + titleSpacing + bodyHeight
  let safeTop : Int := 180
  let safeBottom : Int := imgH - 320
  let centeredY := Int.fdiv (imgH - totalHeight) 2
  let y := max safeTop (min centeredY (safeBottom - totalHeight))
  ⟨y, totalHeight⟩

/-- The clamp `max safeTop (min c (safeBottom - T))` keeps the top margin
unconditionally, and the bottom margin exactly when the block fits. -/
theorem clampY_bounds (safeTop safeBottom c T : Int) :
    safeTop ≤ max safeTop (min c (safeBottom - T)) ∧
    (T ≤ safeBottom - safeTop → max safeTop (min c (safeBottom - T)) + T ≤ safeBottom) := by
  refine ⟨le_max_left _ _, fun h => ?_⟩
  have h1 : min c (safeBottom - T) ≤ safeBottom - T := min_le_right _ _
  have h2 : max safeTop (min c (safeBottom - T)) ≤ safeBottom - T :=
    max_le (by omega) h1
  omega

/-- C8 (amended): for both slide kinds and any measurement oracle and text,
the block's top row always respects the top safe margin, and the bottom row
respects the bottom safe margin whenever the wrapped block's height fits
inside the safe region. -/
theorem overlay_safe_zone_clamp (measure mT mB : String → Nat) (imgH : Int) (text : String) :
    ((150 : Int) ≤ (hookLayout measure 1080 imgH text).startY) ∧
    ((hookLayout measure 1080 imgH text).totalHeight ≤ (imgH - 320) - 150 →
      (hookLayout measure 1080 imgH text).startY
        + (hookLayout measure 1080 imgH text).totalHeight ≤ imgH - 320) ∧
    ((180 : Int) ≤ (contentLayout mT mB 1080 imgH text).startY) ∧
    ((contentLayout mT mB 1080 imgH text).totalHeight ≤ (imgH - 320) - 180 →
      (contentLayout mT mB 1080 imgH text).startY
        + (contentLayout mT mB 1080 imgH text).totalHeight ≤ imgH - 320) :=
  ⟨(clampY_bounds 150 (imgH - 320) _ _).1,
   (clampY_bounds 150 (imgH - 320) _ _).2,
   (clampY_bounds 180 (imgH - 320) _ _).1,
   (clampY_bounds 180 (imgH - 320) _ _).2⟩

def cxMeasure : String → Nat := fun s => 60 * s.length

def cxHookText : String := String.intercalate " " (List.replicate 20 "abcdefghij")

/-- C8 counterexample: a 20-word hook wraps to 20 lines under a plausible
font-metric model (60px per character against the 918px limit); the clamp
pins the block to the top margin and its bottom row lands 450px below the
bottom safe margin — refuting the claim for arbitrary text lengths. -/
theorem renderer_safe_zone_counterexample :
    (hookLayout cxMeasure 1080 1920 cxHookText).startY = 150 ∧
    1920 - 320 < (hookLayout cxMeasure 1080 1920 cxHookText).startY
      + (hookLayout cxMeasure 1080 1920 cxHookText).totalHeight := by
  constructor <;> decide

/-- Concrete instantiation of `overlay_safe_zone_clamp` on a short hook and a
short content slide at the production 1080×1920 geometry. -/
theorem overlay_safe_zone_clamp_witness :
    ((hookLayout cxMeasure 1080 1920 "bedtime wins").totalHeight ≤ (1920 - 320) - 150 ∧
      (hookLayout cxMeasure 1080 1920 "bedtime wins").startY
        + (hookLayout cxMeasure 1080 1920 "bedtime wins").totalHeight ≤ 1920 - 320) ∧
    ((contentLayout cxMeasure cxMeasure 1080 1920 "tip 1: stay calm\n\nbreathe first").totalHeight
        ≤ (1920 - 320) - 180 ∧
      (contentLayout cxMeasure cxMeasure 1080 1920 "tip 1: stay calm\n\nbreathe first").startY
        + (contentLayout cxMeasure cxMeasure 1080 1920
            "tip 1: stay calm\n\nbreathe first").totalHeight ≤ 1920 - 320) :=
  ⟨⟨by decide,
    (overlay_safe_zone_clamp cxMeasure cxMeasure cxMeasure 1920 "bedtime wins").2.1 (by decide)⟩,
   ⟨by decide,
    (overlay_safe_zone_clamp cxMeasure cxMeasure cxMeasure 1920
      "tip 1: stay calm\n\nbreathe first").2.2.2 (by decide)⟩⟩

/-! ### Image acquisition

Image payloads are opaque byte strings; they are modelled as `Nat` tokens.
The Gemini and Pexels HTTP services are oracles. -/

/-- Opaque image payload. -/
abbrev Img := Nat

/-! #### `image_generator.py::ImageGenerator._generate_gemini` (lines 202-222) -/

def imageGenGeminiAux (gen : String → Option Img → Option Img) :
    List String → Nat → Option Img → List Img → List Img
  | [], _, _, images => images
  | p :: ps, i, ref, images =>
    match gen p ref with
    | some b =>
      imageGenGeminiAux gen ps (i + 1) (if i = 0 then some b else ref) (images ++ [b])
    | none => imageGenGeminiAux gen ps (i + 1) ref images

/-- `_generate_gemini`: on a failed slide it logs and keeps going, returning
whatever subset succeeded. -/
def imageGenGemini (gen : String → Option Img → Option Img)
    (prompts : List String) (numSlides : Nat) : List Img :=
  if prompts.isEmpty ∨ prompts.length < numSlides then []
  else imageGenGeminiAux gen (prompts.take numSlides) 0 none []

/-! #### `generator.py::generate` gemini slide loop (lines 244-278) -/

def sleepKeywords : List String := ["baby", "crib", "sleep", "nursery", "nap", "bedtime"]

/-- Prompt assembly of lines 250-260 (`safeSleep` is
`scenes["safe_sleep_rules"]`, appended when a sleep keyword occurs). -/
def buildFullPrompt (safeSleep : String) (prompt : String) (i : Nat) : String :=
  let fp := prompt ++ ", vertical portrait format, 9:16 aspect ratio"
  let fp := if 1 < i then
      fp ++ ", IMPORTANT: maintain the same visual style, color palette, lighting, and artistic approach as the reference image"
    else fp
  if sleepKeywords.any (fun k => strContains (pyLower fp) k) ∧ safeSleep ≠ "" then
    fp ++ ", " ++ safeSleep
  else fp

def geminiAcquireAux (gen : String → Option Img → Option Img) (safeSleep : String) :
    List String → Nat → Option Img → List Img → Except String (List Img)
  | [], _, _, images => .ok images
  | p :: ps, i, ref, images =>
    let full := buildFullPrompt safeSleep p i
    match gen full (if 1 < i then ref else none) with
    | some b =>
      geminiAcquireAux gen safeSleep ps (i + 1) (if i = 1 then some b else ref) (images ++ [b])
    | none => .error s!"Failed to generate image for slide {i}"

/-- The orchestrator's generate-mode loop: slide 1 becomes the reference
image, any `None` from the service aborts the run with the 1-based index. -/
def geminiAcquire (gen : String → Option Img → Option Img) (safeSleep : String)
    (prompts : List String) : Except String (List Img) :=
  geminiAcquireAux gen safeSleep prompts 1 none []

theorem geminiAcquireAux_spec (gen : String → Option Img → Option Img) (safeSleep : String) :
    ∀ (ps : List String) (i : Nat) (ref : Option Img) (images : List Img),
      (∀ l, geminiAcquireAux gen safeSleep ps i ref images = .ok l →
        l.length = images.length + ps.length) ∧
      (∀ e, geminiAcquireAux gen safeSleep ps i ref images = .error e →
        ∃ j, i ≤ j ∧ j < i + ps.length ∧ e = s!"Failed to generate image for slide {j}") := by
  intro ps
  induction ps with
  | nil =>
    intro i ref images
    refine ⟨fun l hl => ?_, fun e he => ?_⟩
    · simp only [geminiAcquireAux] at hl
      cases hl
      simp
    · simp only [geminiAcquireAux] at he
      exact absurd he (fun h => Except.noConfusion h)
  | cons p ps ih =>
    intro i ref images
    refine ⟨fun l hl => ?_, fun e he => ?_⟩
    · rw [geminiAcquireAux] at hl
      cases hgen : gen (buildFullPrompt safeSleep p i) (if 1 < i then ref else none) with
      | some b =>
        rw [hgen] at hl
        have := (ih (i + 1) (if i = 1 then some b else ref) (images ++ [b])).1 l hl
        simp only [List.length_append, List.length_singleton, List.length_cons,
          List.length_nil] at this ⊢
        omega
      | none =>
        rw [hgen] at hl
        exact absurd hl (by simp)
    · rw [geminiAcquireAux] at he
      cases hgen : gen (buildFullPrompt safeSleep p i) (if 1 < i then ref else none) with
      | some b =>
        rw [hgen] at he
        obtain ⟨j, hj1, hj2, hj3⟩ := (ih (i + 1) (if i = 1 then some b else ref) (images ++ [b])).2 e he
        exact ⟨j, by omega, by simp only [List.length_cons]; omega, hj3⟩
      | none =>
        rw [hgen] at he
        cases he
        exact ⟨i, le_refl i, by simp only [List.length_cons]; omega, rfl⟩

/-- C4 (amended): the orchestrator's generate-mode loop never returns a
partial list — a successful acquisition has one image per prompt, and a
failure surfaces a message naming a 1-based slide index within range. -/
theorem gemini_orchestrator_abort (gen : String → Option Img → Option Img)
    (safeSleep : String) (prompts : List String) :
    (∀ l, geminiAcquire gen safeSleep prompts = .ok l → l.length = prompts.length) ∧
    (∀ e, geminiAcquire gen safeSleep prompts = .error e →
      ∃ i, 1 ≤ i ∧ i ≤ prompts.length ∧ e = s!"Failed to generate image for slide {i}") := by
  refine ⟨fun l hl => ?_, fun e he => ?_⟩
  · have := (geminiAcquireAux_spec gen safeSleep prompts 1 none []).1 l hl
    simpa using this
  · obtain ⟨j, hj1, hj2, hj3⟩ := (geminiAcquireAux_spec gen safeSleep prompts 1 none []).2 e he
    exact ⟨j, hj1, by omega, hj3⟩

/-- Concrete instantiation of `gemini_orchestrator_abort`: two prompts with an
always-successful service yield exactly two images. -/
theorem gemini_orchestrator_abort_witness :
    geminiAcquire (fun _ _ => some 7) "" ["a", "bb"] = Except.ok [7, 7] ∧
    ([7, 7] : List Img).length = 2 :=
  ⟨by rfl,
   (gemini_orchestrator_abort (fun _ _ => some 7) "" ["a", "bb"]).1 [7, 7] (by rfl)⟩

def cxGen : String → Option Img → Option Img :=
  fun p _ => if p = "p3" then none else some p.length

/-- C4 counterexample: `ImageGenerator._generate_gemini` with the synthesis
service returning `null` for slide 3 of 5 silently hands a 4-image partial
list back to its caller instead of aborting with the slide index. -/
theorem gemini_partial_list_counterexample :
    imageGenGemini cxGen ["a", "bb", "p3", "dddd", "eeeee"] 5 = [1, 2, 4, 5] ∧
    (imageGenGemini cxGen ["a", "bb", "p3", "dddd", "eeeee"] 5).length ≠ 5 := by
  constructor <;> decide

/-! #### Stock mode: `pexels_client.py::search_photos` (lines 90-102),
`content_formats.py::get_pexels_query`, and
`image_generator.py::_generate_pexels` (lines 224-274)

The Pexels HTTP search is the oracle `api : query → per_page → List Photo`
(a non-2xx of the strategy-3 raw request behaves like an empty result, since
the code skips the extend in that case). -/

structure Photo where
  id : Int
deriving DecidableEq, Repr

/-- `search_photos`: filter out recently used ids, falling back to the full
page when every photo was used. -/
def searchPhotos (used : List Int) (apiPhotos : List Photo) : List Photo :=
  let fresh := apiPhotos.filter (fun p => decide (p.id ∉ used))
  if fresh.isEmpty then apiPhotos else fresh

/-- `content_formats.FORMATS[*]["pexels_keywords"]`. -/
def formatPexelsKeywords (fmt : String) : Option (List String) :=
  if fmt = "scripts" then
    some ["parent comforting child", "toddler parent calm", "family gentle"]
  else if fmt = "boring_habits" then
    some ["parent child peaceful", "morning routine", "family calm"]
  else if fmt = "how_to" then
    some ["baby sleeping peaceful", "nursery calm", "parent baby gentle"]
  else none

/-- Topic mappings of `content_formats.get_pexels_query`. -/
def topicMappingsCF : List (String × String) :=
  [("sleep", "baby sleeping peaceful nursery"),
   ("tantrum", "parent comforting upset toddler calm"),
   ("feeding", "baby eating parent gentle"),
   ("bedtime", "parent child bedtime cozy"),
   ("routine", "family morning routine peaceful"),
   ("sibling", "parent children playing together"),
   ("picky eating", "toddler eating table parent")]

/-- `get_pexels_query`; `none` models the `ValueError` for unknown formats. -/
def getPexelsQuery (fmt topic : String) : Option String :=
  match formatPexelsKeywords fmt with
  | none => none
  | some keywords =>
    match topicMappingsCF.find? (fun kv => strContains (pyLower topic) kv.1) with
    | some kv => some kv.2
    | none => some ((keywords.headD "parent child") ++ " " ++ topic)

/-- Topic mappings of `ImageGenerator._topic_to_pexels_query`. -/
def topicMappingsIG : List (String × String) :=
  [("sleep", "baby sleeping peaceful nursery"),
   ("tantrum", "parent comforting upset toddler calm"),
   ("feeding", "baby eating parent gentle"),
   ("bedtime", "parent child bedtime cozy"),
   ("routine", "parent child morning routine peaceful"),
   ("sibling", "parent children playing together"),
   ("picky eating", "toddler eating table parent")]

/-- `_topic_to_pexels_query` (an empty `formatName` models `None`; the caught
exception for unknown formats falls through to the topic mappings). -/
def topicToPexelsQuery (topic : String) (formatName : String) : String :=
  let viaFormat := if formatName ≠ "" then getPexelsQuery formatName topic else none
  match viaFormat with
  | some q => q
  | none =>
    match topicMappingsIG.find? (fun kv => strContains (pyLower topic) kv.1) with
    | some kv => kv.2
    | none => "parent child " ++ topic

/-- `_get_fallback_query`. -/
def fallbackQuery (formatName : String) : String :=
  if formatName = "scripts" then "parent comforting toddler calm gentle"
  else if formatName = "boring_habits" then "parent child routine peaceful home"
  else if formatName = "how_to" then "parent baby caring gentle nurturing"
  else "parent child warm cozy intimate"

inductive PexelsStrategy
  | one
  | two
  | three
deriving DecidableEq, Repr

structure PexelsCall where
  strategy : PexelsStrategy
  query : String
  perPage : Nat
  filtersHistory : Bool
deriving DecidableEq, Repr

/-- `_generate_pexels` strategy cascade, instrumented with the list of search
calls it issues (mirroring the source's sequential reassignments of
`photos`). -/
def generatePexelsT (used : List Int) (api : String → Nat → List Photo)
    (topic : String) (numSlides : Nat) (formatName : String) :
    List Photo × List PexelsCall :=
  let q1 := topicToPexelsQuery topic formatName
  let pp := min (numSlides * 2) 80
  let photos1 := searchPhotos used (api q1 pp)
  let photos2 :=
    if photos1.length < numSlides then searchPhotos used (api (fallbackQuery formatName) pp)
    else photos1
  let photos3 :=
    if photos2.length < numSlides then
      photos2 ++ (api "parent child cozy" 80).filter
        (fun p => decide (p.id ∉ photos2.map Photo.id))
    else photos2
  let calls : List PexelsCall :=
    [⟨.one, q1, pp, true⟩]
      ++ (if photos1.length < numSlides then [⟨.two, fallbackQuery formatName, pp, true⟩] else [])
      ++ (if photos2.length < numSlides then [⟨.three, "parent child cozy", 80, false⟩] else [])
  (photos3, calls)

/-- `_generate_pexels` download stage: failed downloads are skipped. -/
def generatePexels (used : List Int) (api : String → Nat → List Photo)
    (topic : String) (numSlides : Nat) (formatName : String)
    (dl : Photo → Option Img) : List Img :=
  let photos := (generatePexelsT used api topic numSlides formatName).1
  if photos.isEmpty then []
  else (photos.take numSlides).filterMap dl

/-- The orchestrator-side check of `generate` (lines 218-220): fewer images
than slides is a failed acquisition. -/
def pexelsAcquire (used : List Int) (api : String → Nat → List Photo)
    (topic : String) (numSlides : Nat) (formatName : String)
    (dl : Photo → Option Img) : Except String (List Img) :=
  let images := generatePexels used api topic numSlides formatName dl
  if images.isEmpty ∨ images.length < numSlides then .error "Failed to fetch Pexels photos"
  else .ok images

/-- C5: the stock-mode strategies run strictly in order and stop as soon as
enough photos are at hand — the issued calls are exactly strategy 1 (topic
query at `min(2·count, 80)`, history-filtered); plus strategy 2 (broader
format query) only when strategy 1 fell short of `count`, which in particular
means it returned fewer than `count` fresh photos; plus strategy 3 (generic
unfiltered query allowing reuse) only when strategies 1-2 both fell short —
and a successful acquisition returns exactly `count` images, never a short
list. -/
theorem pexels_fallback_chain (used : List Int) (api : String → Nat → List Photo)
    (topic fmtName : String) (count : Nat) (dl : Photo → Option Img) :
    ((generatePexelsT used api topic count fmtName).2 =
      (let q1 := topicToPexelsQuery topic fmtName
       let pp := min (count * 2) 80
       let photos1 := searchPhotos used (api q1 pp)
       let photos2 := searchPhotos used (api (fallbackQuery fmtName) pp)
       if photos1.length < count then
         if photos2.length < count then
           [⟨.one, q1, pp, true⟩, ⟨.two, fallbackQuery fmtName, pp, true⟩,
            ⟨.three, "parent child cozy", 80, false⟩]
         else [⟨.one, q1, pp, true⟩, ⟨.two, fallbackQuery fmtName, pp, true⟩]
       else [⟨.one, q1, pp, true⟩])) ∧
    ((searchPhotos used (api (topicToPexelsQuery topic fmtName) (min (count * 2) 80))).length
        < count →
      ((api (topicToPexelsQuery topic fmtName) (min (count * 2) 80)).filter
        (fun p => decide (p.id ∉ used))).length < count) ∧
    (∀ l, pexelsAcquire used api topic count fmtName dl = .ok l → l.length = count) := by
  refine ⟨?_, ?_, ?_⟩
  · simp only [generatePexelsT]
    by_cases h1 : (searchPhotos used
        (api (topicToPexelsQuery topic fmtName) (min (count * 2) 80))).length < count
    · simp only [if_pos h1]
      by_cases h2 : (searchPhotos used
          (api (fallbackQuery fmtName) (min (count * 2) 80))).length < count
      · simp only [if_pos h2]; rfl
      · simp only [if_neg h2]; rfl
    · simp only [if_neg h1]; rfl
  · intro h
    simp only [searchPhotos] at h
    by_cases hf : ((api (topicToPexelsQuery topic fmtName) (min (count * 2) 80)).filter
        (fun p => decide (p.id ∉ used))).isEmpty
    · rw [if_pos hf] at h
      rw [List.isEmpty_iff] at hf
      rw [hf]
      simp only [List.length_nil]
      omega
    · rwa [if_neg hf] at h
  · intro l hl
    simp only [pexelsAcquire] at hl
    by_cases hc : (generatePexels used api topic count fmtName dl).isEmpty ∨
        (generatePexels used api topic count fmtName dl).length < count
    · rw [if_pos hc] at hl
      exact absurd hl (fun h => Except.noConfusion h)
    · rw [if_neg hc] at hl
      cases hl
      push_neg at hc
      have hub : (generatePexels used api topic count fmtName dl).length ≤ count := by
        simp only [generatePexels]
        by_cases hp : ((generatePexelsT used api topic count fmtName).1).isEmpty
        · rw [if_pos hp]; simp
        · rw [if_neg hp]
          calc (((generatePexelsT used api topic count fmtName).1.take count).filterMap dl).length
              ≤ ((generatePexelsT used api topic count fmtName).1.take count).length :=
                List.length_filterMap_le _ _
            _ ≤ count := by rw [List.length_take]; omega
      omega

/-- Concrete instantiation of `pexels_fallback_chain`: a topic query returning
three fresh photos for three slides succeeds with exactly three images. -/
theorem pexels_fallback_chain_witness :
    pexelsAcquire [] (fun _ _ => [⟨1⟩, ⟨2⟩, ⟨3⟩]) "bedtime" 3 "scripts" (fun _ => some 0)
      = Except.ok [0, 0, 0] ∧
    ([0, 0, 0] : List Img).length = 3 :=
  ⟨by rfl,
   (pexels_fallback_chain [] (fun _ _ => [⟨1⟩, ⟨2⟩, ⟨3⟩]) "bedtime" "scripts" 3
      (fun _ => some 0)).2.2 [0, 0, 0] (by rfl)⟩

/-! ### `generator.py::_parse_claude_response`, structured path (lines 509-558)

`re.search(r'\x7b.*\x7d', ..., re.DOTALL)` grabs the first `{` through the
last `}` and `json.loads` decodes it; both are Python stdlib, so their result
is modelled as a `JsonExtract` input: no brace match, a decode error, or the
decoded top-level object. -/

inductive Json where
  | null
  | bool (b : Bool)
  | num (n : Int)
  | str (s : String)
  | arr (xs : List Json)
  | obj (kvs : List (String × Json))

/-- Uncaught Python exceptions of the parsing and scoring pipeline. -/
inductive PExc
  | typeError
  | keyError
  | indexError
deriving DecidableEq, Repr

def getField (kvs : List (String × Json)) (k : String) : Option Json :=
  (kvs.find? (fun kv => kv.1 == k)).map (fun kv => kv.2)

/-- Python `dict.get(k)`: a missing key gives `None`, and a JSON `null` value
also decodes to `None`. -/
def pyGetOpt (kvs : List (String × Json)) (k : String) : Option Json :=
  match getField kvs k with
  | some .null => none
  | x => x

/-- Python iteration (`for slide_data in ...`): lists yield their elements,
dicts their keys, strings their characters; other values raise `TypeError`. -/
def pyIter : Json → Except PExc (List Json)
  | .arr xs => .ok xs
  | .obj kvs => .ok (kvs.map (fun kv => .str kv.1))
  | .str s => .ok (s.toList.map (fun c => .str (String.mk [c])))
  | _ => .error .typeError

/-- Python subscript `v["text"]`. -/
def pyGetItem (v : Json) (k : String) : Except PExc Json :=
  match v with
  | .obj kvs =>
    match getField kvs k with
    | some x => .ok x
    | none => .error .keyError
  | _ => .error .typeError

/-- The slide-collection loop of lines 537-539, raising at the first entry
without a `text` subscript. -/
def buildSlidesAux : List Json → Except PExc (List Json)
  | [] => .ok []
  | sd :: rest =>
    match pyGetItem sd "text" with
    | .error e => .error e
    | .ok v =>
      match buildSlidesAux rest with
      | .error e => .error e
      | .ok l => .ok (v :: l)

def buildSlides (kvs : List (String × Json)) : Except PExc (List Json) :=
  match pyIter ((getField kvs "slides").getD (.arr [])) with
  | .error e => .error e
  | .ok items => buildSlidesAux items

def placeholderPatterns : List String :=
  ["explanation here", "[hook text]", "[phrase]", "[situation]", "[action phrase]"]

/-- The placeholder scan of lines 541-546: `any` short-circuits on the first
matching slide; a non-string `text` raises `TypeError` when reached.  A clean
pass has seen every text as a string, which the `some` result records. -/
def checkSlides : List Json → Except PExc (Option (List String))
  | [] => .ok (some [])
  | .str s :: rest =>
    if placeholderPatterns.any (fun p => strContains (pyLower s) p) then .ok none
    else
      match checkSlides rest with
      | .error e => .error e
      | .ok none => .ok none
      | .ok (some l) => .ok (some (s :: l))
  | _ :: _ => .error .typeError

inductive JsonExtract where
  | noMatch
  | decodeError
  | ok (kvs : List (String × Json))

/-- The structured attempt (lines 529-558): `none` means fall back to the
heuristic text path. -/
def tryStructured (ext : JsonExtract) :
    Except PExc (Option (List String × Option Json × Option Json)) :=
  match ext with
  | .noMatch => .ok none
  | .decodeError => .ok none
  | .ok kvs =>
    match buildSlides kvs with
    | .error e => .error e
    | .ok texts =>
      match checkSlides texts with
      | .error e => .error e
      | .ok none => .ok none
      | .ok (some strs) =>
        .ok (some (strs, pyGetOpt kvs "caption", pyGetOpt kvs "pexels_query"))

structure ParseResult where
  slides : List String
  caption : Option Json
  pexelsQuery : Option Json

/-- `_parse_claude_response`: structured formats (`scripts`, `boring_habits`,
`how_to`, cloned) try the JSON path first, everything else goes straight to
the heuristic text path. -/
def parseClaudeResponse (isClonedFmt : Bool) (ext : JsonExtract) (lines : List String)
    (fmt topic : String) (numItems : Nat) (ctaChoice : Nat) : Except PExc ParseResult :=
  if fmt ∈ (["scripts", "boring_habits", "how_to"] : List String) ∨ isClonedFmt then
    match tryStructured ext with
    | .error e => .error e
    | .ok (some (strs, cap, pq)) => .ok ⟨strs, cap, pq⟩
    | .ok none => .ok ⟨heuristicParse lines fmt topic numItems ctaChoice, none, none⟩
  else .ok ⟨heuristicParse lines fmt topic numItems ctaChoice, none, none⟩

/-- C6 (amended): whenever the extracted object deserializes, yields a slide
list, and no slide matches a placeholder pattern, the structured path returns
those slides verbatim — for every `numItems`, with no count check, no padding
and no truncation; a count mismatch does not trigger the heuristic fallback
(fallback happens only without a brace match, on a decode error, or on
placeholder text). -/
theorem structured_verbatim (isCloned : Bool) (kvs : List (String × Json))
    (texts : List Json) (strs : List String) (lines : List String)
    (fmt topic : String) (numItems ctaChoice : Nat)
    (hfmt : fmt ∈ (["scripts", "boring_habits", "how_to"] : List String) ∨ isCloned = true)
    (hb : buildSlides kvs = .ok texts)
    (hc : checkSlides texts = .ok (some strs)) :
    parseClaudeResponse isCloned (.ok kvs) lines fmt topic numItems ctaChoice
      = .ok ⟨strs, pyGetOpt kvs "caption", pyGetOpt kvs "pexels_query"⟩ := by
  have hfmt' : fmt ∈ (["scripts", "boring_habits", "how_to"] : List String) ∨
      (isCloned : Prop) := by
    rcases hfmt with h | h
    · exact Or.inl h
    · exact Or.inr (by simp [h])
  simp only [parseClaudeResponse, if_pos hfmt', tryStructured, hb, hc]

/-- The 7-slide clean structured reply of the end-to-end scenario. -/
def wfStructTexts : List String :=
  ["the bedtime truth no one tells you",
   "tip 1: dim the lights first",
   "tip 2: same song every night",
   "tip 3: feed before the bath",
   "tip 4: leave while drowsy",
   "tip 5: hold the boring line",
   "save this for tonight"]

/-- The structured format object `{"slides": [{"text": t}, ...]}` built from
a slide list (the shape `json.dumps` serializes it to). -/
def serializeSlides (texts : List String) : List (String × Json) :=
  [("slides", .arr (texts.map (fun t => .obj [("text", .str t)])))]

/-- Concrete instantiation of `structured_verbatim`: a clean reply with
exactly `5 + 2` slides comes back byte-for-byte. -/
theorem structured_verbatim_witness :
    parseClaudeResponse false (.ok (serializeSlides wfStructTexts)) [] "scripts"
        "bedtime" 5 0
      = .ok ⟨wfStructTexts, none, none⟩ ∧
    wfStructTexts.length = 5 + 2 :=
  ⟨structured_verbatim false (serializeSlides wfStructTexts)
      (wfStructTexts.map Json.str) wfStructTexts [] "scripts" "bedtime" 5 0
      (Or.inl (by decide)) (by rfl) (by rfl),
   by decide⟩

def mismatchKvs : List (String × Json) :=
  [("slides", .arr [.obj [("text", .str "a")], .obj [("text", .str "b")],
    .obj [("text", .str "c")]])]

/-- C6 counterexample: a deserializable reply with only 3 slides against
`expected_item_count = 5` is returned verbatim — the count mismatch is not a
parse failure and does not fall back to the heuristic path (which always
yields `5 + 2` slides). -/
theorem structured_count_mismatch_counterexample :
    parseClaudeResponse false (.ok mismatchKvs) [] "scripts" "t" 5 0
      = .ok ⟨["a", "b", "c"], none, none⟩ ∧
    (["a", "b", "c"] : List String).length ≠ 5 + 2 := by
  exact ⟨rfl, by decide⟩

/-! ### Round-trip through the structured format (C9) -/

theorem buildSlidesAux_serialize (texts : List String) :
    buildSlidesAux (texts.map (fun t => .obj [("text", .str t)]))
      = .ok (texts.map Json.str) := by
  induction texts with
  | nil => rfl
  | cons t ts ih =>
    simp only [List.map_cons, buildSlidesAux, pyGetItem, getField, List.find?, ih]
    rfl

theorem buildSlides_serialize (texts : List String) :
    buildSlides (serializeSlides texts) = .ok (texts.map Json.str) := by
  simp only [buildSlides, serializeSlides, getField, List.find?]
  rw [show ((("slides", Json.arr (texts.map (fun t => .obj [("text", .str t)]))).1
      == "slides") = true) from rfl]
  exact buildSlidesAux_serialize texts

theorem checkSlides_map_str (texts : List String)
    (h : ∀ t ∈ texts, (placeholderPatterns.any (fun p => strContains (pyLower t) p)) = false) :
    checkSlides (texts.map Json.str) = .ok (some texts) := by
  induction texts with
  | nil => rfl
  | cons t ts ih =>
    have ht := h t (List.mem_cons_self t ts)
    have hts := ih (fun x hx => h x (List.mem_cons_of_mem t hx))
    simp only [List.map_cons, checkSlides, ht, if_false, hts]
    rfl

/-- C9 (amended): serializing a slide list into the structured format and
re-parsing it (same `expected_item_count`) returns the identical slide list,
provided no slide text matches a placeholder pattern; slide lists containing
the heuristic path's placeholder padding trip the placeholder check and fall
back to heuristic parsing of the serialized text instead. -/
theorem structured_roundtrip (isCloned : Bool) (texts : List String) (lines : List String)
    (fmt topic : String) (numItems ctaChoice : Nat)
    (hfmt : fmt ∈ (["scripts", "boring_habits", "how_to"] : List String) ∨ isCloned = true)
    (hclean : ∀ t ∈ texts,
      (placeholderPatterns.any (fun p => strContains (pyLower t) p)) = false) :
    parseClaudeResponse isCloned (.ok (serializeSlides texts)) lines fmt topic
        numItems ctaChoice
      = .ok ⟨texts, none, none⟩ := by
  have := structured_verbatim isCloned (serializeSlides texts) (texts.map Json.str)
    texts lines fmt topic numItems ctaChoice hfmt (buildSlides_serialize texts)
    (checkSlides_map_str texts hclean)
  exact this

/-- Concrete instantiation of `structured_roundtrip` on the clean 7-slide
list. -/
theorem structured_roundtrip_witness :
    parseClaudeResponse false (.ok (serializeSlides wfStructTexts)) ["x"] "how_to"
        "bedtime" 5 1
      = .ok ⟨wfStructTexts, none, none⟩ :=
  structured_roundtrip false wfStructTexts ["x"] "how_to" "bedtime" 5 1
    (Or.inl (by decide)) (by decide)

/-- The slide list the heuristic path produces from an empty reply: a
synthesized hook, five placeholder items, and a canned CTA. -/
def rtOriginal : List String := heuristicParse [] "scripts" "sleep" 5 0

/-- `json.dumps` of `serializeSlides rtOriginal` — the raw text whose brace
extraction decodes back to that object; it is a single line, newlines inside
the slide texts being escaped. -/
def rtDump : String :=
  "\x7b\"slides\": [\x7b\"text\": \"what to say about sleep\"\x7d, \x7b\"text\": \"tip 1\\n\\nexplanation here\"\x7d, \x7b\"text\": \"tip 2\\n\\nexplanation here\"\x7d, \x7b\"text\": \"tip 3\\n\\nexplanation here\"\x7d, \x7b\"text\": \"tip 4\\n\\nexplanation here\"\x7d, \x7b\"text\": \"tip 5\\n\\nexplanation here\"\x7d, \x7b\"text\": \"save this so you can come back to it when you need it\"\x7d]\x7d"

/-- C9 counterexample: the heuristic parse of an empty reply pads with
`explanation here` placeholder items; re-parsing its reserialized structured
form (same `expected_item_count`) trips the placeholder check, falls back to
heuristic parsing of the dumped JSON line, and yields a different slide
list — the round trip is not idempotent for every parser output. -/
theorem structured_roundtrip_counterexample :
    parseClaudeResponse false (.ok (serializeSlides rtOriginal)) [rtDump]
        "scripts" "sleep" 5 0
      = .ok ⟨heuristicParse [rtDump] "scripts" "sleep" 5 0, none, none⟩ ∧
    heuristicParse [rtDump] "scripts" "sleep" 5 0 ≠ rtOriginal := by
  constructor
  · rfl
  · decide

/-! ### `generator.py::_generate_content_with_claude` (lines 357-506)

The model service is the oracle `llm`, mapping the attempt index and the
score feedback folded into the prompt (the `score_result` dict with its
injected `min_score`) to the raw reply, itself represented by its two
stdlib-derived views: the brace-extraction/decode result and the cleaned,
split line list. -/

structure RawResponse where
  ext : JsonExtract
  lines : List String

/-- `max_attempts` selection (lines 394-401). -/
def maxAttemptsFor (hookStrategy fmt : String) : Nat :=
  if hookStrategy ≠ "viral" then 1
  else if fmt ∈ (["scripts", "boring_habits", "how_to"] : List String) then 3
  else 10

/-- The bounded retry loop (lines 404-498), with `remaining` the attempts
left (`remaining = 0` inside a run marks the final attempt, where the code
logs `Using best attempt` and falls through with the current slides).  The
fuel-0 base is unreachable: `max_attempts ≥ 1` always. -/
def contentAttemptLoop (llm : Nat → Option (ScoreResult × Int) → RawResponse)
    (sem : String → Int × List String) (dims : String → List (String × Int))
    (isCloned : Bool) (fmt topic : String) (numItems : Nat) (ctaChoice : Nat)
    (minHookScore : Int) (maxWords : Nat) (viral : Bool) :
    Nat → Nat → Option (ScoreResult × Int) → Except PExc (List String)
  | 0, _, _ => .error .indexError
  | remaining + 1, attempt, fb =>
    let raw := llm attempt fb
    match parseClaudeResponse isCloned raw.ext raw.lines fmt topic numItems ctaChoice with
    | .error e => .error e
    | .ok parsed =>
      if viral then
        match parsed.slides.head? with
        | none => .error .indexError
        | some hook =>
          let score := scoreHook sem dims hook minHookScore maxWords
          if score.passed then .ok parsed.slides
          else if remaining = 0 then .ok parsed.slides
          else
            contentAttemptLoop llm sem dims isCloned fmt topic numItems ctaChoice
              minHookScore maxWords viral remaining (attempt + 1) (some (score, minHookScore))
      else .ok parsed.slides

def generateContentSlides (llm : Nat → Option (ScoreResult × Int) → RawResponse)
    (sem : String → Int × List String) (dims : String → List (String × Int))
    (isCloned : Bool) (fmt topic : String) (numItems : Nat) (ctaChoice : Nat)
    (minHookScore : Int) (maxWords : Nat) (hookStrategy : String) :
    Except PExc (List String) :=
  contentAttemptLoop llm sem dims isCloned fmt topic numItems ctaChoice minHookScore
    maxWords (hookStrategy = "viral") (maxAttemptsFor hookStrategy fmt) 0 none

/-- Three structured replies whose hooks score 10, 8 and 5. -/
def cAt1 : List String :=
  ["h1", "tip 1: a", "tip 2: b", "tip 3: c", "tip 4: d", "tip 5: e", "save this"]

def cAt2 : List String :=
  ["h2", "tip 1: a", "tip 2: b", "tip 3: c", "tip 4: d", "tip 5: e", "save this"]

def cAt3 : List String :=
  ["h3", "tip 1: a", "tip 2: b", "tip 3: c", "tip 4: d", "tip 5: e", "save this"]

def llm3 : Nat → Option (ScoreResult × Int) → RawResponse := fun i _ =>
  if i = 0 then ⟨.ok (serializeSlides cAt1), []⟩
  else if i = 1 then ⟨.ok (serializeSlides cAt2), []⟩
  else ⟨.ok (serializeSlides cAt3), []⟩

def sem3 : String → Int × List String := fun h =>
  if h = "h1" then (10, []) else if h = "h2" then (8, []) else (5, [])

/-- C3: with three failing attempts scoring 10, 8 and 5 against
`min_hook_score = 16` (the `scripts` budget of 3 attempts), the loop returns
the final attempt's slides — hook score 5 — not the best-scoring first
attempt's, because no best-attempt accumulator exists; this contradicts the
loop's own `Using best attempt` log line. -/
theorem retry_returns_last_not_best :
    generateContentSlides llm3 sem3 (fun _ => []) false "scripts" "sleep" 5 0 16 20 "viral"
      = .ok cAt3 ∧
    cAt3 ≠ cAt1 ∧
    (scoreHook sem3 (fun _ => []) "h1" 16 20).total = 10 ∧
    (scoreHook sem3 (fun _ => []) "h1" 16 20).passed = false ∧
    (scoreHook sem3 (fun _ => []) "h3" 16 20).total = 5 ∧
    (scoreHook sem3 (fun _ => []) "h3" 16 20).passed = false := by
  exact ⟨by rfl, by decide, by rfl, by rfl, by rfl, by rfl⟩

/-! ### `generator.py::generate` format validation and item capping
(lines 149-171) -/

/-- The slice of a `content_templates.json` format entry that the validation
logic reads. -/
structure FormatConfig where
  isClonedFormat : Bool
  defaultSlideCount : Option Nat

def builtinFormats : List String :=
  ["habit_list", "step_guide", "scripts", "boring_habits", "how_to"]

def formatsToCap : List String :=
  ["boring_habits", "habit_list", "step_guide", "scripts", "how_to"]

/-- Cloned formats registered in the templates (lines 151-155). -/
def clonedNames (templates : List (String × FormatConfig)) : List String :=
  (templates.filter (fun fc => fc.2.isClonedFormat && decide (fc.1 ∉ builtinFormats))).map
    (fun fc => fc.1)

/-- The `num_items` a `generate` call actually uses: format validity check,
the 5-10 range check for non-cloned formats, the cloned-format slide-count
override, then the cap of built-in formats to 5 items. -/
def effectiveNumItems (templates : List (String × FormatConfig)) (fmt : String)
    (numItems : Nat) : Except String Nat :=
  let cn := clonedNames templates
  if fmt ∉ builtinFormats ++ cn then .error "Invalid format"
  else
    let step : Except String Nat :=
      if fmt ∈ cn then
        .ok ((((templates.find? (fun fc => fc.1 == fmt)).map
          (fun fc => fc.2.defaultSlideCount)).join).getD numItems)
      else if ¬ (5 ≤ numItems ∧ numItems ≤ 10) then .error "Invalid slide count"
      else .ok numItems
    match step with
    | .error e => .error e
    | .ok n => .ok (if fmt ∈ formatsToCap ∧ 5 < n then 5 else n)

theorem mem_formatsToCap_iff (s : String) : s ∈ formatsToCap ↔ s ∈ builtinFormats := by
  simp only [formatsToCap, builtinFormats, List.mem_cons, List.not_mem_nil, or_false]
  tauto

theorem clonedNames_not_builtin {templates : List (String × FormatConfig)} {s : String}
    (h : s ∈ clonedNames templates) : s ∉ builtinFormats := by
  simp only [clonedNames, List.mem_map, List.mem_filter] at h
  obtain ⟨fc, ⟨_, hflag⟩, rfl⟩ := h
  have := (Bool.and_eq_true _ _).mp hflag
  exact of_decide_eq_true this.2

/-- C10 (amended): every built-in format with a requested `num_items` in
[6, 10] passes the 5-10 validity check and is then silently capped to 5, so
the recorded `num_items` is 5 and — whenever the slides come from the
heuristic path, which is the only path for `habit_list`/`step_guide` and the
fallback for the rest — the carousel has exactly `5 + 2 = 7` slides; cloned
formats keep their own configured slide count uncapped. -/
theorem builtin_cap_to_five :
    (∀ (templates : List (String × FormatConfig)) (fmt : String) (n : Nat),
      fmt ∈ builtinFormats → 6 ≤ n → n ≤ 10 →
      effectiveNumItems templates fmt n = .ok 5) ∧
    (∀ (lines : List String) (fmt topic : String) (c : Nat),
      (heuristicParse lines fmt topic 5 c).length = 7) ∧
    (∀ (templates : List (String × FormatConfig)) (fmt : String) (k n : Nat),
      fmt ∈ clonedNames templates →
      ((templates.find? (fun fc => fc.1 == fmt)).map (fun fc => fc.2.defaultSlideCount))
        = some (some k) →
      effectiveNumItems templates fmt n = .ok k) := by
  refine ⟨?_, ?_, ?_⟩
  · intro templates fmt n hfmt h6 h10
    have hmem : fmt ∈ builtinFormats ++ clonedNames templates :=
      List.mem_append.mpr (Or.inl hfmt)
    have hcn : fmt ∉ clonedNames templates := fun h => clonedNames_not_builtin h hfmt
    simp only [effectiveNumItems, if_neg (not_not_intro hmem), if_neg hcn,
      if_neg (not_not_intro (show 5 ≤ n ∧ n ≤ 10 by omega))]
    rw [if_pos ⟨(mem_formatsToCap_iff fmt).mpr hfmt, by omega⟩]
  · intro lines fmt topic c
    exact heuristicParse_length lines fmt topic 5 c
  · intro templates fmt k n hcn hfind
    have hmem : fmt ∈ builtinFormats ++ clonedNames templates :=
      List.mem_append.mpr (Or.inr hcn)
    have hcap : fmt ∉ formatsToCap := fun h =>
      clonedNames_not_builtin hcn ((mem_formatsToCap_iff fmt).mp h)
    simp only [effectiveNumItems, if_neg (not_not_intro hmem), if_pos hcn, hfind]
    have hX : ((some (some k) : Option (Option Nat)).join).getD n = k := rfl
    rw [hX, if_neg (show ¬ (fmt ∈ formatsToCap ∧ 5 < k) from fun h => hcap h.1)]

/-- Concrete instantiation of `builtin_cap_to_five`: `habit_list` with a
requested 7 items is capped to 5, and the heuristic parse then yields 7
slides. -/
theorem builtin_cap_to_five_witness :
    effectiveNumItems [] "habit_list" 7 = .ok 5 ∧
    (heuristicParse [] "habit_list" "t" 5 0).length = 7 :=
  ⟨builtin_cap_to_five.1 [] "habit_list" 7 (by decide) (by decide) (by decide),
   builtin_cap_to_five.2.1 [] "habit_list" "t" 0⟩

def capCxKvs : List (String × Json) :=
  [("slides", .arr [.obj [("text", .str "a")], .obj [("text", .str "b")],
    .obj [("text", .str "c")]])]

/-- C10 counterexample: for the built-in `scripts` format with requested
`num_items = 8` (capped to 5), a deserializable 3-slide model reply makes the
carousel 3 slides, not 7 — the `exactly 7 slides` consequence fails on the
structured path. -/
theorem builtin_cap_counterexample :
    effectiveNumItems [] "scripts" 8 = .ok 5 ∧
    parseClaudeResponse false (.ok capCxKvs) [] "scripts" "t" 5 0
      = .ok ⟨["a", "b", "c"], none, none⟩ ∧
    (["a", "b", "c"] : List String).length ≠ 7 := by
  exact ⟨by rfl, by rfl, by decide⟩
